import Mathlib

/-!
Shallow embedding of the coffeelog backend (src/app/main.py, src/app/models.py,
src/schemas.py): the relational store, the Redis cache with per-key expiry, the
pydantic request schemas and every request handler the claims refer to.

Conventions of the embedding:
* Machine time is an absolute `Nat` instant; Redis entries store an absolute
  expiry instant (`SET ... EX ttl` at time `now` yields expiry `now + ttl`).
* Bytes stored in Redis are modelled by their JSON-decode result: a stored
  entry carries `some j` when `json.loads` of the bytes yields the value `j`,
  and `none` when the bytes fail to deserialize (a corrupt entry).
  `json.dumps` of an application value always produces bytes that decode back
  to that value, so `cache_set_json` stores `some j`.
* A database row is modelled at the level of the in-memory ORM object: every
  non-primary-key attribute can hold Python `None`, so those fields are
  `Option`-typed; the NOT NULL column constraints declared in
  src/app/models.py are captured by the `dbValid` predicates.
* Dates and datetimes carry no arithmetic in the code paths under study:
  calendar dates are ISO strings, timestamps are `Nat` instants.
* `price` is a float in the source; it is only ever stored and copied, never
  computed with, so it is represented by `Rat`.
-/

namespace CoffeeLog

/-- JSON values, as produced by `json.loads` on the bytes this service writes
(ints and floats collapse to one numeric constructor). -/
inductive Json where
  | null
  | num (q : Rat)
  | str (s : String)
  | obj (fields : List (String × Json))

/-- Python truthiness of a decoded JSON value, as used by the handlers'
bare `if cached:` tests. -/
def Json.truthy : Json → Bool
  | .null => false
  | .num q => q != 0
  | .str s => s != ""
  | .obj fs => !fs.isEmpty

/-- Field lookup in a JSON object (mirrors dict access after `json.loads`). -/
def Json.getField : Json → String → Option Json
  | .obj fs, k => (fs.find? (fun p => p.1 == k)).map (fun p => p.2)
  | _, _ => none

/-- What `json.loads` does with a byte string stored in Redis: it either
succeeds with a value, raises `json.JSONDecodeError` on well-formed UTF-8 that
is not JSON, or raises `UnicodeDecodeError` on bytes that are not valid UTF-8.
Stored bytes are modelled by which of the three happens. -/
inductive CacheData where
  | value (j : Json)
  | malformed
  | nonUtf8

/-- Unhandled Python exceptions that escape a handler and surface to the
caller as a generic server error (500). -/
inductive PyError where
  | unicodeDecodeError
  | integrityError
deriving DecidableEq, Repr

/-- One Redis entry: the decode behavior of the stored bytes together with the
absolute instant at which the key expires. -/
structure CacheEntry where
  data : CacheData
  expiresAt : Nat

/-- The Redis keyspace: an association list from keys to live entries. -/
abbrev Cache := List (String × CacheEntry)

/-- The raw entry currently stored under a key, expiry ignored. -/
def cacheLookup (c : Cache) (k : String) : Option CacheEntry :=
  (c.find? (fun p => p.1 == k)).map (fun p => p.2)

/-- Redis DEL: remove a key. -/
def redisDel (c : Cache) (k : String) : Cache :=
  c.filter (fun p => p.1 != k)

/-- Redis SET with EX: store bytes (given by their decode behavior) under a
key with a time-to-live, at absolute time `now`. -/
def redisSet (c : Cache) (now : Nat) (k : String) (d : CacheData) (ttl : Nat) : Cache :=
  (k, ⟨d, now + ttl⟩) :: redisDel c k

/-- Redis GET at absolute time `now`: the stored bytes if the key is present
and unexpired. -/
def redisGet (c : Cache) (now : Nat) (k : String) : Option CacheData :=
  match cacheLookup c k with
  | some e => if now < e.expiresAt then some e.data else none
  | none => none

/-- cache_get_json (src/app/main.py:46): GET the key; absent data gives
`none`; otherwise `json.loads` the bytes. The `except` clause catches only
`json.JSONDecodeError`, so UTF-8 bytes that are not JSON become a soft `none`,
while bytes that are not valid UTF-8 raise `UnicodeDecodeError`, which is not
caught and escapes to the caller. -/
def cache_get_json (c : Cache) (now : Nat) (k : String) : Except PyError (Option Json) :=
  match redisGet c now k with
  | none => .ok none
  | some (.value j) => .ok (some j)
  | some .malformed => .ok none
  | some .nonUtf8 => .error .unicodeDecodeError

/-- cache_set_json (src/app/main.py:56): `json.dumps` the value and SET it with
the given time-to-live. -/
def cache_set_json (c : Cache) (now : Nat) (k : String) (v : Json) (ttl : Nat) : Cache :=
  redisSet c now k (CacheData.value v) ttl

/-- cache_del_json (src/app/main.py:60): DEL the key. -/
def cache_del_json (c : Cache) (k : String) : Cache :=
  redisDel c k

/-- key_latest (src/app/main.py:68). -/
def key_latest : String := "cache:meta:coffee:latest"

/-- key_total (src/app/main.py:72). -/
def key_total : String := "cache:meta:total"

/-- key_total_user (src/app/main.py:76). -/
def key_total_user (user : String) : String := "cache:meta:total:" ++ user

/-- key_today (src/app/main.py:80). -/
def key_today : String := "cache:meta:today"

/-- key_today_user (src/app/main.py:84). -/
def key_today_user (user : String) : String := "cache:meta:today:" ++ user

/-- An in-memory ORM row of table coffeelog_coffee (src/app/models.py:20).
The primary key is always assigned; every other attribute may dynamically hold
Python `None`; `CoffeeRow.dbValid` records which columns are NOT NULL. -/
structure CoffeeRow where
  id : Int
  roasting_facility : Option String
  coffee_name : Option String
  size_g : Option Int
  roast_date : Option String
  open_date : Option String
  price : Option Rat
  country_of_origin : Option String
deriving DecidableEq, Repr

/-- NOT NULL constraints of the coffee table: roasting_facility, coffee_name
and size_g are mapped non-optional in src/app/models.py. -/
def CoffeeRow.dbValid (r : CoffeeRow) : Bool :=
  r.roasting_facility.isSome && r.coffee_name.isSome && r.size_g.isSome

/-- An in-memory ORM row of table coffeelog_cup (src/app/models.py:37). -/
structure CupRow where
  id : Int
  date_time : Option Nat
  username : Option String
  coffee_id : Option Int
deriving DecidableEq, Repr

/-- NOT NULL constraints of the cup table: all three data columns are mapped
non-optional in src/app/models.py. -/
def CupRow.dbValid (r : CupRow) : Bool :=
  r.date_time.isSome && r.username.isSome && r.coffee_id.isSome

/-- The relational store: the two tables. -/
structure Store where
  coffees : List CoffeeRow
  cups : List CupRow
deriving DecidableEq, Repr

/-- schemas.CoffeeBase (src/schemas.py): the creation payload, with every
non-optional field required by validation. -/
structure CoffeeBase where
  roasting_facility : String
  coffee_name : String
  size_g : Int
  roast_date : Option String
  open_date : Option String
  price : Option Rat
  country_of_origin : Option String
deriving DecidableEq, Repr

/-- schemas.CupBase (src/schemas.py): the cup creation payload. -/
structure CupBase where
  date_time : Nat
  username : String
  coffee_id : Int
deriving DecidableEq, Repr

/-- schemas.CoffeeUpdate (src/schemas.py:23): every field is declared
`T | None = None`. The outer `Option` records whether the field was present in
the request body at all (pydantic "set"); the inner `Option` is the value,
which may itself be an explicit null. -/
structure CoffeeUpdate where
  roasting_facility : Option (Option String) := none
  coffee_name : Option (Option String) := none
  size_g : Option (Option Int) := none
  roast_date : Option (Option String) := none
  open_date : Option (Option String) := none
  price : Option (Option Rat) := none
  country_of_origin : Option (Option String) := none
deriving DecidableEq, Repr

/-- schemas.CupUpdate (src/schemas.py:44): every field is declared
`T | None = None`; same set/value encoding as `CoffeeUpdate`. -/
structure CupUpdate where
  date_time : Option (Option Nat) := none
  username : Option (Option String) := none
  coffee_id : Option (Option Int) := none
deriving DecidableEq, Repr

/-- Validation of one `str | None = None` pydantic field against its (possibly
absent) JSON value: absent means unset, null and strings are accepted, anything
else is a 422. -/
def decodeOptionalStr : Option Json → Option (Option (Option String))
  | none => some none
  | some Json.null => some (some none)
  | some (Json.str s) => some (some (some s))
  | some _ => none

/-- Validation of one `int | None = None` pydantic field: absent means unset;
null and whole numbers are accepted. -/
def decodeOptionalInt : Option Json → Option (Option (Option Int))
  | none => some none
  | some Json.null => some (some none)
  | some (Json.num q) => if q.den == 1 then some (some (some q.num)) else none
  | some _ => none

/-- Validation of one `float | None = None` pydantic field. -/
def decodeOptionalNum : Option Json → Option (Option (Option Rat))
  | none => some none
  | some Json.null => some (some none)
  | some (Json.num q) => some (some (some q))
  | some _ => none

/-- Request-body validation for PATCH /coffee (schemas.CoffeeUpdate): the body
must be a JSON object; each declared field, when present, must match its
declared optional type; absent fields stay unset. `none` is the framework's
422 response. -/
def validateCoffeeUpdate (body : Json) : Option CoffeeUpdate :=
  match body with
  | Json.obj _ => do
    let rf ← decodeOptionalStr (body.getField "roasting_facility")
    let cn ← decodeOptionalStr (body.getField "coffee_name")
    let sg ← decodeOptionalInt (body.getField "size_g")
    let rd ← decodeOptionalStr (body.getField "roast_date")
    let od ← decodeOptionalStr (body.getField "open_date")
    let pr ← decodeOptionalNum (body.getField "price")
    let co ← decodeOptionalStr (body.getField "country_of_origin")
    some ⟨rf, cn, sg, rd, od, pr, co⟩
  | _ => none

/-- Query-parameter validation for GET /cups/ (src/app/main.py:209): offset
defaults to 0, limit defaults to 100 and carries the constraint `le=100`; a
larger limit is a 422 (`none`). -/
def validateCupsQuery (offset : Option Int) (limit : Option Int) : Option (Int × Int) :=
  let o := offset.getD 0
  let l := limit.getD 100
  if l ≤ 100 then some (o, l) else none

/-- Query-parameter validation for GET /coffee/ (src/app/main.py:104): offset
and limit are plain `int | None = None` with no constraint, so every request
passes. -/
def validateCoffeeQuery (offset : Option Int) (limit : Option Int) :
    Option (Option Int × Option Int) :=
  some (offset, limit)

/-- Autoincrement primary key for the coffee table: one past the largest id in
use (a fresh id, monotone in creation order, as a Postgres sequence yields). -/
def nextCoffeeId (s : Store) : Int :=
  (s.coffees.map (fun r => r.id)).foldr max 0 + 1

/-- Autoincrement primary key for the cup table. -/
def nextCupId (s : Store) : Int :=
  (s.cups.map (fun r => r.id)).foldr max 0 + 1

/-- The ORM row built from a validated creation payload. -/
def coffeeRowOfBase (id : Int) (b : CoffeeBase) : CoffeeRow :=
  ⟨id, some b.roasting_facility, some b.coffee_name, some b.size_g,
    b.roast_date, b.open_date, b.price, b.country_of_origin⟩

/-- create_coffee (src/app/main.py:88): insert the row, commit, then delete the
latest-coffee cache key; returns the stored row. -/
def create_coffee (s : Store) (c : Cache) (b : CoffeeBase) :
    CoffeeRow × Store × Cache :=
  let row := coffeeRowOfBase (nextCoffeeId s) b
  (row, { s with coffees := s.coffees ++ [row] }, cache_del_json c key_latest)

/-- read_coffees (src/app/main.py:104): SELECT with optional OFFSET and LIMIT;
a missing offset or limit leaves the rows unbounded on that side. -/
def read_coffees (s : Store) (offset limit : Option Int) : List CoffeeRow :=
  let rows := match offset with
    | none => s.coffees
    | some o => s.coffees.drop o.toNat
  match limit with
  | none => rows
  | some l => rows.take l.toNat

/-- read_cups (src/app/main.py:209): SELECT with the validated OFFSET and
LIMIT query parameters. -/
def read_cups (s : Store) (offset limit : Int) : List CupRow :=
  (s.cups.drop offset.toNat).take limit.toNat

/-- ORDER BY id DESC ... first(): the coffee row with the greatest id. -/
def latestCoffee (s : Store) : Option CoffeeRow :=
  s.coffees.argmax (fun r => r.id)

/-- model_dump of schemas.Coffee for the latest-coffee cache entry: a JSON
object of all fields, dates serialized as strings (`default=str`). -/
def coffeeToJson (r : CoffeeRow) : Json :=
  Json.obj
    [("roasting_facility", (r.roasting_facility.map Json.str).getD Json.null),
     ("coffee_name", (r.coffee_name.map Json.str).getD Json.null),
     ("size_g", (r.size_g.map (fun n => Json.num n)).getD Json.null),
     ("roast_date", (r.roast_date.map Json.str).getD Json.null),
     ("open_date", (r.open_date.map Json.str).getD Json.null),
     ("price", (r.price.map Json.num).getD Json.null),
     ("country_of_origin", (r.country_of_origin.map Json.str).getD Json.null),
     ("id", Json.num r.id)]

/-- read_latest_coffee_id (src/app/main.py:113): serve the cached latest-coffee
snapshot when the decoded value is truthy; otherwise query the store — 404
(`none`, no header, cache untouched) when empty — and repopulate the key with a
300 second time-to-live. The middle component is the x-cache response header,
unset on the 404 path. A `UnicodeDecodeError` escaping cache_get_json aborts
the request. -/
def read_latest_coffee_id (s : Store) (c : Cache) (now : Nat) :
    Except PyError (Option Json × Option (String × String) × Cache) :=
  match cache_get_json c now key_latest with
  | .error e => .error e
  | .ok (some j) =>
    if j.truthy then .ok (some j, some ("x-cache", "hit"), c)
    else
      match latestCoffee s with
      | none => .ok (none, none, c)
      | some co =>
        .ok (some (coffeeToJson co), some ("x-cache", "miss"),
          cache_set_json c now key_latest (coffeeToJson co) 300)
  | .ok none =>
    match latestCoffee s with
    | none => .ok (none, none, c)
    | some co =>
      .ok (some (coffeeToJson co), some ("x-cache", "miss"),
        cache_set_json c now key_latest (coffeeToJson co) 300)

/-- The PATCH merge loop (src/app/main.py:161): iterate over
`model_dump(exclude_unset=True)` and assign each supplied field — explicit
nulls included — onto the row; unset fields are untouched. -/
def applyCoffeeUpdate (row : CoffeeRow) (p : CoffeeUpdate) : CoffeeRow :=
  { row with
    roasting_facility := p.roasting_facility.getD row.roasting_facility,
    coffee_name := p.coffee_name.getD row.coffee_name,
    size_g := p.size_g.getD row.size_g,
    roast_date := p.roast_date.getD row.roast_date,
    open_date := p.open_date.getD row.open_date,
    price := p.price.getD row.price,
    country_of_origin := p.country_of_origin.getD row.country_of_origin }

/-- The committed effect of the coffee merge loop on the table: the row whose
id was matched is replaced by its patched image, every other row is kept. -/
def patchCoffees (l : List CoffeeRow) (coffee_id : Int) (p : CoffeeUpdate) : List CoffeeRow :=
  l.map (fun r => if r.id == coffee_id then applyCoffeeUpdate r p else r)

/-- update_coffee (src/app/main.py:147): find the row by id — 404 (`none`)
when absent — assign the supplied fields, commit, then delete the
latest-coffee cache key; returns the refreshed row. -/
def update_coffee (s : Store) (c : Cache) (coffee_id : Int) (p : CoffeeUpdate) :
    Option CoffeeRow × Store × Cache :=
  match s.coffees.find? (fun r => r.id == coffee_id) with
  | none => (none, s, c)
  | some row =>
    (some (applyCoffeeUpdate row p),
     { s with coffees := patchCoffees s.coffees coffee_id p },
     cache_del_json c key_latest)

/-- Outcome of a DELETE handler: the `ok` acknowledgment, a 404, or an
unhandled exception surfacing as a server error. -/
inductive DeleteOutcome where
  | ok
  | notFound
  | serverError
deriving DecidableEq, Repr

/-- delete_coffee (src/app/main.py:173): 404 when the id is absent. When the
coffee has dependent cups the commit fails: the relationship configures no
delete cascade, so at flush SQLAlchemy nulls the dependents' coffee_id, which
is NOT NULL — the transaction rolls back, the error escapes as a 500, and the
cache deletions (issued only after the session block) are never reached.
Otherwise the row is removed, the commit succeeds, and the latest, today and
total cache keys are deleted. -/
def delete_coffee (s : Store) (c : Cache) (coffee_id : Int) :
    DeleteOutcome × Store × Cache :=
  match s.coffees.find? (fun r => r.id == coffee_id) with
  | none => (.notFound, s, c)
  | some _ =>
    match s.cups.any (fun r => r.coffee_id == some coffee_id) with
    | true => (.serverError, s, c)
    | false =>
      (.ok,
       { s with coffees := s.coffees.filter (fun r => r.id != coffee_id) },
       cache_del_json (cache_del_json (cache_del_json c key_latest) key_today) key_total)

/-- create_cup (src/app/main.py:191): insert the row and commit — the INSERT
violates the foreign key when no coffee with the payload's coffee_id exists,
and that error escapes as a 500 before any cache deletion — then delete the
today, today-by-user, total and total-by-user keys for the payload's
username. -/
def create_cup (s : Store) (c : Cache) (b : CupBase) :
    Except PyError (CupRow × Store × Cache) :=
  match s.coffees.any (fun r => r.id == b.coffee_id) with
  | false => .error .integrityError
  | true =>
    let row : CupRow := ⟨nextCupId s, some b.date_time, some b.username, some b.coffee_id⟩
    let c1 := cache_del_json c key_today
    let c2 := cache_del_json c1 (key_today_user b.username)
    let c3 := cache_del_json c2 key_total
    let c4 := cache_del_json c3 (key_total_user b.username)
    .ok (row, { s with cups := s.cups ++ [row] }, c4)

/-- The PATCH merge loop for cups (src/app/main.py:237). -/
def applyCupUpdate (row : CupRow) (p : CupUpdate) : CupRow :=
  { row with
    date_time := p.date_time.getD row.date_time,
    username := p.username.getD row.username,
    coffee_id := p.coffee_id.getD row.coffee_id }

/-- The committed effect of the cup merge loop on the table. -/
def patchCups (l : List CupRow) (cup_id : Int) (p : CupUpdate) : List CupRow :=
  l.map (fun r => if r.id == cup_id then applyCupUpdate r p else r)

/-- update_cup (src/app/main.py:227): find the row by id — 404 (`none`) when
absent — assign the supplied fields, commit, and return the refreshed row.
The handler takes no cache handle and performs no cache operation. -/
def update_cup (s : Store) (cup_id : Int) (p : CupUpdate) :
    Option CupRow × Store :=
  match s.cups.find? (fun r => r.id == cup_id) with
  | none => (none, s)
  | some row =>
    (some (applyCupUpdate row p),
     { s with cups := patchCups s.cups cup_id p })

/-- One whole PATCH /cups request against the combined system state: the
handler (update_cup) touches only the relational store, so the cache component
passes through unchanged. -/
def patchCupRequest (s : Store) (c : Cache) (cup_id : Int) (p : CupUpdate) :
    Option CupRow × Store × Cache :=
  let r := update_cup s cup_id p
  (r.1, r.2, c)

/-- delete_cup (src/app/main.py:245): 404 when the id is absent. When the row
exists the handler first rebuilds it as schemas.Cup from the ORM object's
attribute dict — but schemas.Cup declares `coffee: Coffee | None` with no
default, which pydantic v2 treats as required, and the unloaded lazy
relationship is never present in that dict, so the construction raises
ValidationError for every existing row. The exception escapes as a 500 before
session.delete runs: nothing is removed, the commit never happens, and the
four cache-key deletions written after the session block are unreachable. -/
def delete_cup (s : Store) (c : Cache) (cup_id : Int) :
    DeleteOutcome × Store × Cache :=
  match s.cups.find? (fun r => r.id == cup_id) with
  | none => (.notFound, s, c)
  | some _ => (.serverError, s, c)

/-- perform_drink (src/app/main.py:263): select the coffee with the highest id
— 404 (`none`, nothing inserted, cache untouched) when the table is empty —
insert a cup for it with the given username and the current timestamp, commit,
then delete the four count keys for that username. -/
def perform_drink (s : Store) (c : Cache) (now : Nat) (username : String) :
    Option CupRow × Store × Cache :=
  match latestCoffee s with
  | none => (none, s, c)
  | some co =>
    let row : CupRow := ⟨nextCupId s, some now, some username, some co.id⟩
    let c1 := cache_del_json c key_today
    let c2 := cache_del_json c1 (key_today_user username)
    let c3 := cache_del_json c2 key_total
    let c4 := cache_del_json c3 (key_total_user username)
    (some row, { s with cups := s.cups ++ [row] }, c4)

/-- COUNT(cup.id): every stored row has an id, so this is the row count. -/
def cupCountTotal (s : Store) : Int :=
  s.cups.length

/-- COUNT(cup.id) WHERE username = u (a NULL username never matches). -/
def cupCountTotalUser (s : Store) (u : String) : Int :=
  (s.cups.filter (fun r => r.username == some u)).length

/-- COUNT(cup.id) WHERE date_time >= start of today (a NULL date_time never
matches); `dayStart` is the absolute instant the current calendar day began. -/
def cupCountToday (s : Store) (dayStart : Nat) : Int :=
  (s.cups.filter (fun r =>
    match r.date_time with
    | some d => decide (dayStart ≤ d)
    | none => false)).length

/-- COUNT(cup.id) WHERE username = u AND date_time >= start of today. -/
def cupCountTodayUser (s : Store) (dayStart : Nat) (u : String) : Int :=
  (s.cups.filter (fun r =>
    r.username == some u &&
    match r.date_time with
    | some d => decide (dayStart ≤ d)
    | none => false)).length

/-- get_coffee_count_total (src/app/main.py:295): serve the cached value when
it decodes and is truthy, with x-cache header value " hit" (leading space as in
the source); otherwise recount from the store, set the key with a 30 second
time-to-live, and answer with header value " miss". -/
def get_coffee_count_total (s : Store) (c : Cache) (now : Nat) :
    Except PyError (Json × (String × String) × Cache) :=
  match cache_get_json c now key_total with
  | .error e => .error e
  | .ok (some j) =>
    if j.truthy then .ok (j, ("x-cache", " hit"), c)
    else
      .ok (Json.num (cupCountTotal s), ("x-cache", " miss"),
        cache_set_json c now key_total (Json.num (cupCountTotal s)) 30)
  | .ok none =>
    .ok (Json.num (cupCountTotal s), ("x-cache", " miss"),
      cache_set_json c now key_total (Json.num (cupCountTotal s)) 30)

/-- get_coffee_count_total_username (src/app/main.py:314): as the total count
but keyed and filtered by username, with header name "x-cached" (as in the
source) and values "hit"/"miss". -/
def get_coffee_count_total_username (s : Store) (c : Cache) (now : Nat) (username : String) :
    Except PyError (Json × (String × String) × Cache) :=
  match cache_get_json c now (key_total_user username) with
  | .error e => .error e
  | .ok (some j) =>
    if j.truthy then .ok (j, ("x-cached", "hit"), c)
    else
      .ok (Json.num (cupCountTotalUser s username), ("x-cached", "miss"),
        cache_set_json c now (key_total_user username)
          (Json.num (cupCountTotalUser s username)) 30)
  | .ok none =>
    .ok (Json.num (cupCountTotalUser s username), ("x-cached", "miss"),
      cache_set_json c now (key_total_user username)
        (Json.num (cupCountTotalUser s username)) 30)

/-- get_coffee_count_today (src/app/main.py:337): today's count with a 10
second time-to-live. -/
def get_coffee_count_today (s : Store) (c : Cache) (now dayStart : Nat) :
    Except PyError (Json × (String × String) × Cache) :=
  match cache_get_json c now key_today with
  | .error e => .error e
  | .ok (some j) =>
    if j.truthy then .ok (j, ("x-cache", "hit"), c)
    else
      .ok (Json.num (cupCountToday s dayStart), ("x-cache", "miss"),
        cache_set_json c now key_today (Json.num (cupCountToday s dayStart)) 10)
  | .ok none =>
    .ok (Json.num (cupCountToday s dayStart), ("x-cache", "miss"),
      cache_set_json c now key_today (Json.num (cupCountToday s dayStart)) 10)

/-- get_coffee_count_today_username (src/app/main.py:360): today's per-user
count with a 30 second time-to-live. -/
def get_coffee_count_today_username (s : Store) (c : Cache) (now dayStart : Nat)
    (username : String) : Except PyError (Json × (String × String) × Cache) :=
  match cache_get_json c now (key_today_user username) with
  | .error e => .error e
  | .ok (some j) =>
    if j.truthy then .ok (j, ("x-cache", "hit"), c)
    else
      .ok (Json.num (cupCountTodayUser s dayStart username), ("x-cache", "miss"),
        cache_set_json c now (key_today_user username)
          (Json.num (cupCountTodayUser s dayStart username)) 30)
  | .ok none =>
    .ok (Json.num (cupCountTodayUser s dayStart username), ("x-cache", "miss"),
      cache_set_json c now (key_today_user username)
        (Json.num (cupCountTodayUser s dayStart username)) 30)

/-- Deleting a key removes its entry. -/
theorem cacheLookup_redisDel_self (c : Cache) (k : String) :
    cacheLookup (redisDel c k) k = none := by
  have h : (redisDel c k).find? (fun p => p.1 == k) = none := by
    apply List.find?_eq_none.mpr
    intro p hp
    have h2 := (List.mem_filter.mp hp).2
    simp only [bne_iff_ne, ne_eq] at h2
    simp [h2]
  simp [cacheLookup, h]

/-- Deleting some key never makes another key appear. -/
theorem cacheLookup_redisDel_of_none (c : Cache) (k k' : String)
    (h : cacheLookup c k = none) : cacheLookup (redisDel c k') k = none := by
  unfold cacheLookup at h ⊢
  unfold redisDel
  rw [Option.map_eq_none'] at h ⊢
  rw [List.find?_eq_none] at h ⊢
  intro p hp
  exact h p (List.mem_filter.mp hp).1

/-- Redis DEL is idempotent. -/
theorem redisDel_redisDel_self (c : Cache) (k : String) :
    redisDel (redisDel c k) k = redisDel c k := by
  unfold redisDel
  rw [List.filter_filter]
  simp

/-- A GET of an entry whose bytes are UTF-8 but not JSON yields the soft
`.ok none` through cache_get_json (the JSONDecodeError is caught), at every
instant. -/
theorem cache_get_json_of_malformed (c : Cache) (now : Nat) (k : String) (e : CacheEntry)
    (he : cacheLookup c k = some e) (hd : e.data = CacheData.malformed) :
    cache_get_json c now k = .ok none := by
  unfold cache_get_json redisGet
  rw [he]
  by_cases h : now < e.expiresAt <;> simp [h, hd]

/-- A GET of a live entry whose bytes are not valid UTF-8 raises the uncaught
UnicodeDecodeError through cache_get_json. -/
theorem cache_get_json_of_nonUtf8_live (c : Cache) (now : Nat) (k : String) (e : CacheEntry)
    (he : cacheLookup c k = some e) (hd : e.data = CacheData.nonUtf8)
    (hlive : now < e.expiresAt) :
    cache_get_json c now k = .error .unicodeDecodeError := by
  unfold cache_get_json redisGet
  rw [he]
  simp [hlive, hd]

/-- A GET of a deleted key yields the soft `.ok none` through cache_get_json. -/
theorem cache_get_json_redisDel_self (c : Cache) (now : Nat) (k : String) :
    cache_get_json (redisDel c k) now k = .ok none := by
  unfold cache_get_json redisGet
  rw [cacheLookup_redisDel_self]

/-- Setting a key after deleting that same key is the same as setting it
directly. -/
theorem cache_set_json_redisDel_self (c : Cache) (now : Nat) (k : String) (v : Json) (ttl : Nat) :
    cache_set_json (redisDel c k) now k v ttl = cache_set_json c now k v ttl := by
  unfold cache_set_json redisSet
  rw [redisDel_redisDel_self]

/-- The four cup-count cache keys a write affecting username `u` must
invalidate are all absent from the cache. -/
def fourKeysGone (c : Cache) (u : String) : Prop :=
  cacheLookup c key_today = none ∧
  cacheLookup c (key_today_user u) = none ∧
  cacheLookup c key_total = none ∧
  cacheLookup c (key_total_user u) = none

/-- The deletion chain the cup-write handlers issue (today, today-by-user,
total, total-by-user, in source order) leaves all four keys absent. -/
theorem fourKeysGone_of_delChain (c : Cache) (u : String) :
    fourKeysGone
      (cache_del_json (cache_del_json (cache_del_json (cache_del_json c key_today)
        (key_today_user u)) key_total) (key_total_user u)) u := by
  unfold fourKeysGone cache_del_json
  refine ⟨?_, ?_, ?_, ?_⟩
  · exact cacheLookup_redisDel_of_none _ _ _ (cacheLookup_redisDel_of_none _ _ _
      (cacheLookup_redisDel_of_none _ _ _ (cacheLookup_redisDel_self c key_today)))
  · exact cacheLookup_redisDel_of_none _ _ _ (cacheLookup_redisDel_of_none _ _ _
      (cacheLookup_redisDel_self _ _))
  · exact cacheLookup_redisDel_of_none _ _ _ (cacheLookup_redisDel_self _ _)
  · exact cacheLookup_redisDel_self _ _

/-- Assigning the same sparse value twice is the same as assigning it once. -/
theorem getD_self_getD {α : Type} (o : Option α) (x : α) :
    o.getD (o.getD x) = o.getD x := by
  cases o <;> rfl

/-- The coffee merge loop never touches the primary key. -/
theorem applyCoffeeUpdate_id (r : CoffeeRow) (p : CoffeeUpdate) :
    (applyCoffeeUpdate r p).id = r.id := rfl

/-- The cup merge loop never touches the primary key. -/
theorem applyCupUpdate_id (r : CupRow) (p : CupUpdate) :
    (applyCupUpdate r p).id = r.id := rfl

/-- Applying the same coffee patch twice equals applying it once. -/
theorem applyCoffeeUpdate_idem (r : CoffeeRow) (p : CoffeeUpdate) :
    applyCoffeeUpdate (applyCoffeeUpdate r p) p = applyCoffeeUpdate r p := by
  simp [applyCoffeeUpdate, getD_self_getD]

/-- Applying the same cup patch twice equals applying it once. -/
theorem applyCupUpdate_idem (r : CupRow) (p : CupUpdate) :
    applyCupUpdate (applyCupUpdate r p) p = applyCupUpdate r p := by
  simp [applyCupUpdate, getD_self_getD]

/-- Mapping an idempotent row transformation twice equals mapping it once. -/
theorem map_self_of_idem {α : Type} (f : α → α) (hf : ∀ x, f (f x) = f x) (l : List α) :
    (l.map f).map f = l.map f := by
  rw [List.map_map]
  exact List.map_congr_left (fun x _ => hf x)

/-- C1 fails as stated: a PATCH /cups request that moves cup 1 from alice to
bob leaves the entire cache untouched — alice's per-user count key is still
present afterwards — because update_cup performs no cache invalidation at
all. -/
theorem update_cup_invalidates_nothing_cex :
    (patchCupRequest ⟨[], [⟨1, some 5, some "alice", some 1⟩]⟩
        [(key_today_user "alice", ⟨CacheData.value (Json.num 3), 40⟩)] 1
        { username := some (some "bob") }).2.2
      = [(key_today_user "alice", ⟨CacheData.value (Json.num 3), 40⟩)] ∧
    cacheLookup (patchCupRequest ⟨[], [⟨1, some 5, some "alice", some 1⟩]⟩
        [(key_today_user "alice", ⟨CacheData.value (Json.num 3), 40⟩)] 1
        { username := some (some "bob") }).2.2 (key_today_user "alice")
      = some ⟨CacheData.value (Json.num 3), 40⟩ :=
  ⟨rfl, rfl⟩

/-- C1 (amended): a successful Cup creation — one whose coffee_id satisfies
the foreign key — deletes, after the relational write, the today,
today-by-user, total and total-by-user keys of the payload's username. The
Cup partial-update handler performs no cache invalidation at all, for any
username, old or new. The Cup delete handler never reaches its key deletions
for an existing cup: rebuilding the row as schemas.Cup raises before the
relational delete, so the request errors with the store and the cache
unchanged. -/
theorem cup_writes_cache_invalidation :
    (∀ (s : Store) (c : Cache) (b : CupBase),
      s.coffees.any (fun r => r.id == b.coffee_id) = true →
      ∃ rs, create_cup s c b = .ok rs ∧ fourKeysGone rs.2.2 b.username) ∧
    (∀ (s : Store) (c : Cache) (cup_id : Int) (row : CupRow),
      s.cups.find? (fun r => r.id == cup_id) = some row →
      delete_cup s c cup_id = (.serverError, s, c)) ∧
    (∀ (s : Store) (c : Cache) (cup_id : Int) (p : CupUpdate),
      (patchCupRequest s c cup_id p).2.2 = c) := by
  refine ⟨?_, ?_, ?_⟩
  · intro s c b hfk
    unfold create_cup
    rw [hfk]
    exact ⟨_, rfl, fourKeysGone_of_delChain c b.username⟩
  · intro s c cup_id row hf
    unfold delete_cup
    rw [hf]
  · intro s c cup_id p
    rfl

/-- C1 witness: a concrete creation for alice (coffee 1 exists) clears all
four of alice's count keys, and a concrete delete of alice's existing cup
errors with the cache untouched. -/
theorem cup_writes_cache_invalidation_witness :
    (∃ rs, create_cup ⟨[⟨1, some "Acme", some "House", some 250, none, none, none, none⟩], []⟩
        [(key_today_user "alice", ⟨CacheData.value (Json.num 3), 40⟩)] ⟨5, "alice", 1⟩
        = .ok rs ∧ fourKeysGone rs.2.2 "alice") ∧
    delete_cup ⟨[], [⟨1, some 5, some "alice", some 1⟩]⟩ [] 1
      = (.serverError, ⟨[], [⟨1, some 5, some "alice", some 1⟩]⟩, []) :=
  ⟨cup_writes_cache_invalidation.1
      ⟨[⟨1, some "Acme", some "House", some 250, none, none, none, none⟩], []⟩
      [(key_today_user "alice", ⟨CacheData.value (Json.num 3), 40⟩)] ⟨5, "alice", 1⟩ rfl,
   cup_writes_cache_invalidation.2.1 ⟨[], [⟨1, some 5, some "alice", some 1⟩]⟩ [] 1
      ⟨1, some 5, some "alice", some 1⟩ rfl⟩

/-- C10: the invalidation the claim describes never happens — deleting the
concrete existing cup of user alice errors at the schemas.Cup rebuild before
any commit or key deletion, leaving the store unchanged and alice's per-user
count key still cached. -/
theorem delete_cup_invalidation_unreachable :
    delete_cup ⟨[], [⟨1, some 5, some "alice", some 1⟩]⟩
        [(key_today_user "alice", ⟨CacheData.value (Json.num 3), 40⟩)] 1
      = (.serverError, ⟨[], [⟨1, some 5, some "alice", some 1⟩]⟩,
          [(key_today_user "alice", ⟨CacheData.value (Json.num 3), 40⟩)]) ∧
    cacheLookup (delete_cup ⟨[], [⟨1, some 5, some "alice", some 1⟩]⟩
        [(key_today_user "alice", ⟨CacheData.value (Json.num 3), 40⟩)] 1).2.2
        (key_today_user "alice")
      = some ⟨CacheData.value (Json.num 3), 40⟩ :=
  ⟨rfl, rfl⟩

/-- C8: evaluation at the failing inputs. Deleting the existing cup 1 answers
a server error — the schemas.Cup rebuild fails — with nothing removed, never
the claimed ok; deleting coffee 1 while cup 1 references it answers a server
error — the commit cannot null the NOT NULL foreign key — with nothing
removed; deleting coffee 1 with no dependent cups does remove it and answers
ok; and deleting an absent id answers not-found with the store unchanged, the
half of the claim the code does satisfy. -/
theorem delete_handlers_failing_inputs :
    delete_cup ⟨[], [⟨1, some 5, some "alice", some 1⟩]⟩ [] 1
      = (.serverError, ⟨[], [⟨1, some 5, some "alice", some 1⟩]⟩, []) ∧
    delete_coffee ⟨[⟨1, some "Acme", some "House", some 250, none, none, none, none⟩],
        [⟨1, some 5, some "alice", some 1⟩]⟩ [] 1
      = (.serverError, ⟨[⟨1, some "Acme", some "House", some 250, none, none, none, none⟩],
          [⟨1, some 5, some "alice", some 1⟩]⟩, []) ∧
    delete_coffee ⟨[⟨1, some "Acme", some "House", some 250, none, none, none, none⟩], []⟩ [] 1
      = (.ok, ⟨[], []⟩, []) ∧
    delete_cup ⟨[], [⟨1, some 5, some "alice", some 1⟩]⟩ [] 7
      = (.notFound, ⟨[], [⟨1, some 5, some "alice", some 1⟩]⟩, []) :=
  ⟨rfl, rfl, rfl, rfl⟩

/-- Searching the patched coffee table for an id finds the patched image of
what the unpatched search found. -/
theorem coffee_find?_patch (l : List CoffeeRow) (id : Int) (p : CoffeeUpdate) :
    (patchCoffees l id p).find? (fun r => r.id == id)
      = (l.find? (fun r => r.id == id)).map
          (fun r => if r.id == id then applyCoffeeUpdate r p else r) := by
  unfold patchCoffees
  rw [List.find?_map]
  congr 1
  have h : ((fun r : CoffeeRow => r.id == id) ∘
      (fun r => if r.id == id then applyCoffeeUpdate r p else r)) = (fun r => r.id == id) := by
    funext x
    by_cases h : x.id = id
    · simp [h, applyCoffeeUpdate_id]
    · simp [h]
  rw [h]

/-- Searching the patched cup table for an id finds the patched image of what
the unpatched search found. -/
theorem cup_find?_patch (l : List CupRow) (id : Int) (p : CupUpdate) :
    (patchCups l id p).find? (fun r => r.id == id)
      = (l.find? (fun r => r.id == id)).map
          (fun r => if r.id == id then applyCupUpdate r p else r) := by
  unfold patchCups
  rw [List.find?_map]
  congr 1
  have h : ((fun r : CupRow => r.id == id) ∘
      (fun r => if r.id == id then applyCupUpdate r p else r)) = (fun r => r.id == id) := by
    funext x
    by_cases h : x.id = id
    · simp [h, applyCupUpdate_id]
    · simp [h]
  rw [h]

/-- Patching the coffee table twice with one payload equals patching once. -/
theorem patchCoffees_idem (l : List CoffeeRow) (id : Int) (p : CoffeeUpdate) :
    patchCoffees (patchCoffees l id p) id p = patchCoffees l id p := by
  unfold patchCoffees
  apply map_self_of_idem
  intro x
  by_cases h : x.id = id
  · simp [h, applyCoffeeUpdate_id, applyCoffeeUpdate_idem]
  · simp [h]

/-- Patching the cup table twice with one payload equals patching once. -/
theorem patchCups_idem (l : List CupRow) (id : Int) (p : CupUpdate) :
    patchCups (patchCups l id p) id p = patchCups l id p := by
  unfold patchCups
  apply map_self_of_idem
  intro x
  by_cases h : x.id = id
  · simp [h, applyCupUpdate_id, applyCupUpdate_idem]
  · simp [h]

/-- Reduction of update_coffee when no row matches the id. -/
theorem update_coffee_none (s : Store) (c : Cache) (id : Int) (p : CoffeeUpdate)
    (hf : s.coffees.find? (fun r => r.id == id) = none) :
    update_coffee s c id p = (none, s, c) := by
  unfold update_coffee
  rw [hf]

/-- Reduction of update_coffee when a row matches the id. -/
theorem update_coffee_some (s : Store) (c : Cache) (id : Int) (p : CoffeeUpdate)
    (row : CoffeeRow) (hf : s.coffees.find? (fun r => r.id == id) = some row) :
    update_coffee s c id p = (some (applyCoffeeUpdate row p),
      { s with coffees := patchCoffees s.coffees id p }, cache_del_json c key_latest) := by
  unfold update_coffee
  rw [hf]

/-- Reduction of update_cup when no row matches the id. -/
theorem update_cup_none (s : Store) (id : Int) (p : CupUpdate)
    (hf : s.cups.find? (fun r => r.id == id) = none) :
    update_cup s id p = (none, s) := by
  unfold update_cup
  rw [hf]

/-- Reduction of update_cup when a row matches the id. -/
theorem update_cup_some (s : Store) (id : Int) (p : CupUpdate)
    (row : CupRow) (hf : s.cups.find? (fun r => r.id == id) = some row) :
    update_cup s id p = (some (applyCupUpdate row p),
      { s with cups := patchCups s.cups id p }) := by
  unfold update_cup
  rw [hf]

/-- C4: a partial update changes only the matched row, and on that row only
the fields explicitly present in the request body; every field the body does
not supply — and the primary key — keeps its pre-update value, and every row
with a different id survives unchanged. -/
theorem partial_update_frame :
    (∀ (s : Store) (c : Cache) (id : Int) (p : CoffeeUpdate) (r : CoffeeRow),
      r ∈ s.coffees →
      (r.id ≠ id → r ∈ (update_coffee s c id p).2.1.coffees) ∧
      (r.id = id →
        applyCoffeeUpdate r p ∈ (update_coffee s c id p).2.1.coffees ∧
        (applyCoffeeUpdate r p).id = r.id ∧
        (p.roasting_facility = none →
          (applyCoffeeUpdate r p).roasting_facility = r.roasting_facility) ∧
        (p.coffee_name = none → (applyCoffeeUpdate r p).coffee_name = r.coffee_name) ∧
        (p.size_g = none → (applyCoffeeUpdate r p).size_g = r.size_g) ∧
        (p.roast_date = none → (applyCoffeeUpdate r p).roast_date = r.roast_date) ∧
        (p.open_date = none → (applyCoffeeUpdate r p).open_date = r.open_date) ∧
        (p.price = none → (applyCoffeeUpdate r p).price = r.price) ∧
        (p.country_of_origin = none →
          (applyCoffeeUpdate r p).country_of_origin = r.country_of_origin))) ∧
    (∀ (s : Store) (id : Int) (p : CupUpdate) (r : CupRow),
      r ∈ s.cups →
      (r.id ≠ id → r ∈ (update_cup s id p).2.cups) ∧
      (r.id = id →
        applyCupUpdate r p ∈ (update_cup s id p).2.cups ∧
        (applyCupUpdate r p).id = r.id ∧
        (p.date_time = none → (applyCupUpdate r p).date_time = r.date_time) ∧
        (p.username = none → (applyCupUpdate r p).username = r.username) ∧
        (p.coffee_id = none → (applyCupUpdate r p).coffee_id = r.coffee_id))) := by
  constructor
  · intro s c id p r hr
    constructor
    · intro hne
      cases hf : s.coffees.find? (fun x => x.id == id) with
      | none =>
        simp only [update_coffee, hf]
        exact hr
      | some row =>
        simp only [update_coffee, patchCoffees, hf]
        have heq : (fun x => if x.id == id then applyCoffeeUpdate x p else x) r = r := by
          simp [hne]
        have h2 := List.mem_map_of_mem
          (fun x => if x.id == id then applyCoffeeUpdate x p else x) hr
        rw [heq] at h2
        exact h2
    · intro hid
      refine ⟨?_, rfl, ?_, ?_, ?_, ?_, ?_, ?_, ?_⟩
      · cases hf : s.coffees.find? (fun x => x.id == id) with
        | none =>
          have := List.find?_eq_none.mp hf r hr
          simp [hid] at this
        | some row =>
          simp only [update_coffee, patchCoffees, hf]
          have heq : (fun x => if x.id == id then applyCoffeeUpdate x p else x) r
              = applyCoffeeUpdate r p := by
            simp [hid]
          have h2 := List.mem_map_of_mem
            (fun x => if x.id == id then applyCoffeeUpdate x p else x) hr
          rw [heq] at h2
          exact h2
      all_goals intro hp
      all_goals simp [applyCoffeeUpdate, hp]
  · intro s id p r hr
    constructor
    · intro hne
      cases hf : s.cups.find? (fun x => x.id == id) with
      | none =>
        simp only [update_cup, hf]
        exact hr
      | some row =>
        simp only [update_cup, patchCups, hf]
        have heq : (fun x => if x.id == id then applyCupUpdate x p else x) r = r := by
          simp [hne]
        have h2 := List.mem_map_of_mem
          (fun x => if x.id == id then applyCupUpdate x p else x) hr
        rw [heq] at h2
        exact h2
    · intro hid
      refine ⟨?_, rfl, ?_, ?_, ?_⟩
      · cases hf : s.cups.find? (fun x => x.id == id) with
        | none =>
          have := List.find?_eq_none.mp hf r hr
          simp [hid] at this
        | some row =>
          simp only [update_cup, patchCups, hf]
          have heq : (fun x => if x.id == id then applyCupUpdate x p else x) r
              = applyCupUpdate r p := by
            simp [hid]
          have h2 := List.mem_map_of_mem
            (fun x => if x.id == id then applyCupUpdate x p else x) hr
          rw [heq] at h2
          exact h2
      all_goals intro hp
      all_goals simp [applyCupUpdate, hp]

/-- C4 witness: patching only price on a concrete coffee keeps coffee_name. -/
theorem partial_update_frame_witness :
    (applyCoffeeUpdate ⟨1, some "Acme", some "House", some 250, none, none, some 999, none⟩
      { price := some (some 25) }).coffee_name = some "House" :=
  ((partial_update_frame.1
      ⟨[⟨1, some "Acme", some "House", some 250, none, none, some 999, none⟩], []⟩
      [] 1 { price := some (some 25) }
      ⟨1, some "Acme", some "House", some 250, none, none, some 999, none⟩
      (List.mem_cons_self _ _)).2 rfl).2.2.2.1 rfl

/-- C5: applying the same partial update twice — to a coffee or to a cup —
yields the same final relational state and the same response row as applying
it once. -/
theorem partial_update_idempotent :
    ∀ (s : Store) (c : Cache) (id : Int) (p : CoffeeUpdate) (q : CupUpdate),
      (update_coffee (update_coffee s c id p).2.1 (update_coffee s c id p).2.2 id p).2.1
        = (update_coffee s c id p).2.1 ∧
      (update_coffee (update_coffee s c id p).2.1 (update_coffee s c id p).2.2 id p).1
        = (update_coffee s c id p).1 ∧
      (update_cup (update_cup s id q).2 id q).2 = (update_cup s id q).2 ∧
      (update_cup (update_cup s id q).2 id q).1 = (update_cup s id q).1 := by
  intro s c id p q
  refine ⟨?_, ?_, ?_, ?_⟩
  · cases hf : s.coffees.find? (fun r => r.id == id) with
    | none =>
      rw [update_coffee_none s c id p hf]
      show (update_coffee s c id p).2.1 = s
      rw [update_coffee_none s c id p hf]
    | some row =>
      have hf2 : (patchCoffees s.coffees id p).find? (fun r => r.id == id)
          = some (applyCoffeeUpdate row p) := by
        have hid : row.id = id := by simpa using List.find?_some hf
        rw [coffee_find?_patch, hf]
        simp [hid]
      rw [update_coffee_some s c id p row hf]
      show (update_coffee { s with coffees := patchCoffees s.coffees id p }
          (cache_del_json c key_latest) id p).2.1
        = { s with coffees := patchCoffees s.coffees id p }
      rw [update_coffee_some { s with coffees := patchCoffees s.coffees id p }
        (cache_del_json c key_latest) id p (applyCoffeeUpdate row p) hf2]
      show Store.mk (patchCoffees (patchCoffees s.coffees id p) id p) s.cups
        = Store.mk (patchCoffees s.coffees id p) s.cups
      rw [patchCoffees_idem]
  · cases hf : s.coffees.find? (fun r => r.id == id) with
    | none =>
      rw [update_coffee_none s c id p hf]
      show (update_coffee s c id p).1 = none
      rw [update_coffee_none s c id p hf]
    | some row =>
      have hf2 : (patchCoffees s.coffees id p).find? (fun r => r.id == id)
          = some (applyCoffeeUpdate row p) := by
        have hid : row.id = id := by simpa using List.find?_some hf
        rw [coffee_find?_patch, hf]
        simp [hid]
      rw [update_coffee_some s c id p row hf]
      show (update_coffee { s with coffees := patchCoffees s.coffees id p }
          (cache_del_json c key_latest) id p).1 = some (applyCoffeeUpdate row p)
      rw [update_coffee_some { s with coffees := patchCoffees s.coffees id p }
        (cache_del_json c key_latest) id p (applyCoffeeUpdate row p) hf2]
      show some (applyCoffeeUpdate (applyCoffeeUpdate row p) p) = some (applyCoffeeUpdate row p)
      rw [applyCoffeeUpdate_idem]
  · cases hf : s.cups.find? (fun r => r.id == id) with
    | none =>
      rw [update_cup_none s id q hf]
      show (update_cup s id q).2 = s
      rw [update_cup_none s id q hf]
    | some row =>
      have hf2 : (patchCups s.cups id q).find? (fun r => r.id == id)
          = some (applyCupUpdate row q) := by
        have hid : row.id = id := by simpa using List.find?_some hf
        rw [cup_find?_patch, hf]
        simp [hid]
      rw [update_cup_some s id q row hf]
      show (update_cup { s with cups := patchCups s.cups id q } id q).2
        = { s with cups := patchCups s.cups id q }
      rw [update_cup_some { s with cups := patchCups s.cups id q } id q
        (applyCupUpdate row q) hf2]
      show Store.mk s.coffees (patchCups (patchCups s.cups id q) id q)
        = Store.mk s.coffees (patchCups s.cups id q)
      rw [patchCups_idem]
  · cases hf : s.cups.find? (fun r => r.id == id) with
    | none =>
      rw [update_cup_none s id q hf]
      show (update_cup s id q).1 = none
      rw [update_cup_none s id q hf]
    | some row =>
      have hf2 : (patchCups s.cups id q).find? (fun r => r.id == id)
          = some (applyCupUpdate row q) := by
        have hid : row.id = id := by simpa using List.find?_some hf
        rw [cup_find?_patch, hf]
        simp [hid]
      rw [update_cup_some s id q row hf]
      show (update_cup { s with cups := patchCups s.cups id q } id q).1
        = some (applyCupUpdate row q)
      rw [update_cup_some { s with cups := patchCups s.cups id q } id q
        (applyCupUpdate row q) hf2]
      show some (applyCupUpdate (applyCupUpdate row q) q) = some (applyCupUpdate row q)
      rw [applyCupUpdate_idem]

/-- C6: the drink action answers not-found — inserting nothing and touching
nothing — exactly when no Coffee exists; otherwise it selects the coffee with
the highest id among the stored coffees and appends one cup row carrying that
coffee's id, the given username and the current timestamp. -/
theorem perform_drink_spec :
    ∀ (s : Store) (c : Cache) (now : Nat) (u : String),
      ((perform_drink s c now u).1 = none ↔ s.coffees = []) ∧
      (s.coffees = [] → perform_drink s c now u = (none, s, c)) ∧
      (∀ co, latestCoffee s = some co →
        co ∈ s.coffees ∧ (∀ r ∈ s.coffees, r.id ≤ co.id) ∧
        (perform_drink s c now u).1
          = some ⟨nextCupId s, some now, some u, some co.id⟩ ∧
        (perform_drink s c now u).2.1.cups
          = s.cups ++ [(⟨nextCupId s, some now, some u, some co.id⟩ : CupRow)] ∧
        (perform_drink s c now u).2.1.coffees = s.coffees) := by
  intro s c now u
  refine ⟨?_, ?_, ?_⟩
  · cases hl : latestCoffee s with
    | none =>
      simp only [perform_drink, hl]
      constructor
      · intro _
        have hl' : s.coffees.argmax (fun r => r.id) = none := hl
        exact List.argmax_eq_none.mp hl'
      · intro _
        trivial
    | some co =>
      simp only [perform_drink, hl]
      constructor
      · intro h
        exact absurd h (by simp)
      · intro he
        unfold latestCoffee at hl
        rw [he] at hl
        simp at hl
  · intro he
    have hl : latestCoffee s = none := by
      unfold latestCoffee
      rw [he]
      rfl
    simp [perform_drink, hl]
  · intro co hl
    have hl' : s.coffees.argmax (fun r => r.id) = some co := hl
    refine ⟨List.argmax_mem hl', ?_, ?_, ?_, ?_⟩
    · intro r hr
      exact List.le_of_mem_argmax hr hl'
    · simp only [perform_drink, hl]
    · simp only [perform_drink, hl]
    · simp only [perform_drink, hl]

/-- C6 witness: with coffees 1 and 2 stored, a concrete drink for alice logs a
cup for coffee 2, the highest id. -/
theorem perform_drink_spec_witness :
    (perform_drink ⟨[⟨1, some "A", some "B", some 250, none, none, none, none⟩,
        ⟨2, some "C", some "D", some 500, none, none, none, none⟩], []⟩ [] 7 "alice").1
      = some ⟨1, some 7, some "alice", some 2⟩ :=
  ((perform_drink_spec ⟨[⟨1, some "A", some "B", some 250, none, none, none, none⟩,
      ⟨2, some "C", some "D", some 500, none, none, none, none⟩], []⟩ [] 7 "alice").2.2
    ⟨2, some "C", some "D", some 500, none, none, none, none⟩ rfl).2.2.1

/-- C7 fails as stated: cached bytes that are not valid UTF-8 do fail to
deserialize as JSON, yet the concrete read below does not fall through as a
cache miss — json.loads raises UnicodeDecodeError, which the handler's
`except json.JSONDecodeError` clause does not catch, and the request surfaces
a server error to the caller. -/
theorem non_utf8_cache_entry_errors_cex :
    get_coffee_count_total ⟨[], []⟩ [(key_total, ⟨CacheData.nonUtf8, 100⟩)] 0
      = .error .unicodeDecodeError :=
  rfl

/-- C7 (amended): for each of the five cacheable reads, a stored entry whose
bytes are valid UTF-8 but fail to parse as JSON — the json.JSONDecodeError
case, which the handler catches — behaves exactly as a missing key: same
response, same header, and, observably through cache_get_json at the affected
key at every instant, the same resulting cache, with no error surfaced. A
live entry whose bytes are not valid UTF-8 instead raises UnicodeDecodeError,
which is not caught and surfaces as a server error. -/
theorem malformed_cache_entry_is_miss :
    (∀ (s : Store) (c : Cache) (now : Nat) (e : CacheEntry),
      cacheLookup c key_total = some e →
      (e.data = CacheData.malformed →
        get_coffee_count_total s c now
          = get_coffee_count_total s (redisDel c key_total) now) ∧
      (e.data = CacheData.nonUtf8 → now < e.expiresAt →
        get_coffee_count_total s c now = .error .unicodeDecodeError)) ∧
    (∀ (s : Store) (c : Cache) (now : Nat) (u : String) (e : CacheEntry),
      cacheLookup c (key_total_user u) = some e →
      (e.data = CacheData.malformed →
        get_coffee_count_total_username s c now u
          = get_coffee_count_total_username s (redisDel c (key_total_user u)) now u) ∧
      (e.data = CacheData.nonUtf8 → now < e.expiresAt →
        get_coffee_count_total_username s c now u = .error .unicodeDecodeError)) ∧
    (∀ (s : Store) (c : Cache) (now dayStart : Nat) (e : CacheEntry),
      cacheLookup c key_today = some e →
      (e.data = CacheData.malformed →
        get_coffee_count_today s c now dayStart
          = get_coffee_count_today s (redisDel c key_today) now dayStart) ∧
      (e.data = CacheData.nonUtf8 → now < e.expiresAt →
        get_coffee_count_today s c now dayStart = .error .unicodeDecodeError)) ∧
    (∀ (s : Store) (c : Cache) (now dayStart : Nat) (u : String) (e : CacheEntry),
      cacheLookup c (key_today_user u) = some e →
      (e.data = CacheData.malformed →
        get_coffee_count_today_username s c now dayStart u
          = get_coffee_count_today_username s (redisDel c (key_today_user u)) now dayStart u) ∧
      (e.data = CacheData.nonUtf8 → now < e.expiresAt →
        get_coffee_count_today_username s c now dayStart u = .error .unicodeDecodeError)) ∧
    (∀ (s : Store) (c : Cache) (now : Nat) (e : CacheEntry),
      cacheLookup c key_latest = some e →
      (e.data = CacheData.malformed →
        ∃ r r2, read_latest_coffee_id s c now = .ok r ∧
          read_latest_coffee_id s (redisDel c key_latest) now = .ok r2 ∧
          r.1 = r2.1 ∧ r.2.1 = r2.2.1 ∧
          ∀ t, cache_get_json r.2.2 t key_latest = cache_get_json r2.2.2 t key_latest) ∧
      (e.data = CacheData.nonUtf8 → now < e.expiresAt →
        read_latest_coffee_id s c now = .error .unicodeDecodeError)) := by
  refine ⟨?_, ?_, ?_, ?_, ?_⟩
  · intro s c now e he
    constructor
    · intro hd
      unfold get_coffee_count_total
      rw [cache_get_json_of_malformed c now key_total e he hd,
          cache_get_json_redisDel_self c now key_total,
          cache_set_json_redisDel_self]
    · intro hd hlive
      unfold get_coffee_count_total
      rw [cache_get_json_of_nonUtf8_live c now key_total e he hd hlive]
  · intro s c now u e he
    constructor
    · intro hd
      unfold get_coffee_count_total_username
      rw [cache_get_json_of_malformed c now (key_total_user u) e he hd,
          cache_get_json_redisDel_self c now (key_total_user u),
          cache_set_json_redisDel_self]
    · intro hd hlive
      unfold get_coffee_count_total_username
      rw [cache_get_json_of_nonUtf8_live c now (key_total_user u) e he hd hlive]
  · intro s c now dayStart e he
    constructor
    · intro hd
      unfold get_coffee_count_today
      rw [cache_get_json_of_malformed c now key_today e he hd,
          cache_get_json_redisDel_self c now key_today,
          cache_set_json_redisDel_self]
    · intro hd hlive
      unfold get_coffee_count_today
      rw [cache_get_json_of_nonUtf8_live c now key_today e he hd hlive]
  · intro s c now dayStart u e he
    constructor
    · intro hd
      unfold get_coffee_count_today_username
      rw [cache_get_json_of_malformed c now (key_today_user u) e he hd,
          cache_get_json_redisDel_self c now (key_today_user u),
          cache_set_json_redisDel_self]
    · intro hd hlive
      unfold get_coffee_count_today_username
      rw [cache_get_json_of_nonUtf8_live c now (key_today_user u) e he hd hlive]
  · intro s c now e he
    constructor
    · intro hd
      unfold read_latest_coffee_id
      rw [cache_get_json_of_malformed c now key_latest e he hd,
          cache_get_json_redisDel_self c now key_latest]
      cases hl : latestCoffee s with
      | none =>
        refine ⟨(none, none, c), (none, none, redisDel c key_latest),
          rfl, rfl, rfl, rfl, ?_⟩
        intro t
        show cache_get_json c t key_latest
          = cache_get_json (redisDel c key_latest) t key_latest
        rw [cache_get_json_of_malformed c t key_latest e he hd,
            cache_get_json_redisDel_self c t key_latest]
      | some co =>
        refine ⟨(some (coffeeToJson co), some ("x-cache", "miss"),
            cache_set_json c now key_latest (coffeeToJson co) 300),
          (some (coffeeToJson co), some ("x-cache", "miss"),
            cache_set_json (redisDel c key_latest) now key_latest (coffeeToJson co) 300),
          rfl, rfl, rfl, rfl, ?_⟩
        intro t
        show cache_get_json (cache_set_json c now key_latest (coffeeToJson co) 300) t key_latest
          = cache_get_json (cache_set_json (redisDel c key_latest) now key_latest
              (coffeeToJson co) 300) t key_latest
        rw [cache_set_json_redisDel_self]
    · intro hd hlive
      unfold read_latest_coffee_id
      rw [cache_get_json_of_nonUtf8_live c now key_latest e he hd hlive]

/-- C7 witness: a concrete malformed entry under the total key reads exactly
as an absent key, and a concrete live non-UTF-8 entry under the latest key
surfaces the uncaught error. -/
theorem malformed_cache_entry_is_miss_witness :
    (get_coffee_count_total ⟨[], []⟩ [(key_total, ⟨CacheData.malformed, 100⟩)] 0
      = get_coffee_count_total ⟨[], []⟩
          (redisDel [(key_total, ⟨CacheData.malformed, 100⟩)] key_total) 0) ∧
    read_latest_coffee_id ⟨[], []⟩ [(key_latest, ⟨CacheData.nonUtf8, 100⟩)] 0
      = .error .unicodeDecodeError :=
  ⟨(malformed_cache_entry_is_miss.1 ⟨[], []⟩ [(key_total, ⟨CacheData.malformed, 100⟩)] 0
      ⟨CacheData.malformed, 100⟩ rfl).1 rfl,
   (malformed_cache_entry_is_miss.2.2.2.2 ⟨[], []⟩ [(key_latest, ⟨CacheData.nonUtf8, 100⟩)] 0
      ⟨CacheData.nonUtf8, 100⟩ rfl).2 rfl (by decide)⟩

/-- C2 fails on the code at the cached value 0: with no cups stored, a first
total-count read misses and caches 0 with a 30 second time-to-live; a second
read 5 seconds later — within the time-to-live, with no intervening write —
has the cached 0 present and decodable, but because the handler tests the
decoded value with Python truthiness (a bare `if cached:`) rather than for
presence, the second read is answered from the store again and marked
" miss" instead of being marked a hit. -/
theorem cached_zero_total_read_marked_miss :
    get_coffee_count_total ⟨[], []⟩ [] 0
      = .ok (Json.num 0, ("x-cache", " miss"),
          [(key_total, ⟨CacheData.value (Json.num 0), 30⟩)]) ∧
    cache_get_json [(key_total, ⟨CacheData.value (Json.num 0), 30⟩)] 5 key_total
      = .ok (some (Json.num 0)) ∧
    get_coffee_count_total ⟨[], []⟩ [(key_total, ⟨CacheData.value (Json.num 0), 30⟩)] 5
      = .ok (Json.num 0, ("x-cache", " miss"),
          [(key_total, ⟨CacheData.value (Json.num 0), 35⟩)]) :=
  ⟨rfl, rfl, rfl⟩

/-- Coffee rows used by the oversized-limit counterexample. -/
def manyCoffees : List CoffeeRow :=
  (List.range 101).map (fun i => ⟨(i : Int), some "r", some "n", some 1, none, none, none, none⟩)

/-- C3 fails as stated for GET /coffee/: a limit of 101 passes request
validation — read_coffees declares plain optional ints with no upper bound —
and the response then returns 101 rows, more than 100. -/
theorem coffee_list_limit_uncapped_cex :
    validateCoffeeQuery none (some 101) = some (none, some 101) ∧
    (read_coffees ⟨manyCoffees, []⟩ none (some 101)).length = 101 := by
  refine ⟨rfl, ?_⟩
  decide

/-- C3 (amended): GET /cups/ is bounded — validation rejects any limit above
100, an accepted request's limit is at most 100, and no accepted request can
receive more than 100 rows — whereas GET /coffee/ validation accepts every
offset/limit pair unchanged, imposing no cap. -/
theorem list_limit_cap :
    (∀ (o l : Option Int) (v : Int × Int), validateCupsQuery o l = some v →
      v.2 ≤ 100 ∧ ∀ s : Store, (read_cups s v.1 v.2).length ≤ 100) ∧
    validateCupsQuery none (some 101) = none ∧
    (∀ (o l : Option Int), validateCoffeeQuery o l = some (o, l)) := by
  refine ⟨?_, rfl, fun o l => rfl⟩
  intro o l v hv
  simp only [validateCupsQuery] at hv
  split at hv
  case isTrue h =>
    cases hv
    refine ⟨h, ?_⟩
    intro st
    show ((st.cups.drop (Option.getD o 0).toNat).take (Option.getD l 100).toNat).length ≤ 100
    have h1 : ((st.cups.drop (Option.getD o 0).toNat).take (Option.getD l 100).toNat).length
        ≤ (Option.getD l 100).toNat := by
      rw [List.length_take]
      exact Nat.min_le_left _ _
    omega
  case isFalse h =>
    simp at hv

/-- C3 witness: an accepted /cups/ request with default parameters returns at
most 100 rows. -/
theorem list_limit_cap_witness :
    (read_cups ⟨[], []⟩ 0 100).length ≤ 100 :=
  (list_limit_cap.1 none none (0, 100) rfl).2 ⟨[], []⟩

/-- C9: the partial-update schema undermines the creation invariant at the
validation layer: every row built from a valid creation payload has its
non-optional columns present, yet a body carrying an explicit null for
coffee_name passes CoffeeUpdate validation (every field there is optional
with default null), and the handler merge loop assigns the null, leaving any
row without a coffee_name — outside the NOT NULL creation invariant. -/
theorem update_schema_allows_null_required_field :
    validateCoffeeUpdate (Json.obj [("coffee_name", Json.null)])
      = some { coffee_name := some none } ∧
    (∀ (b : CoffeeBase) (id : Int), (coffeeRowOfBase id b).dbValid = true) ∧
    (∀ r : CoffeeRow,
      (applyCoffeeUpdate r { coffee_name := some none }).coffee_name = none ∧
      (applyCoffeeUpdate r { coffee_name := some none }).dbValid = false) := by
  refine ⟨rfl, fun b id => rfl, fun r => ⟨rfl, ?_⟩⟩
  simp [applyCoffeeUpdate, CoffeeRow.dbValid]

end CoffeeLog
